import Mathlib

/-!
Verification of the DX UIM MCP server (`server.py`).

The development shallowly embeds the executable core of the server:

* a JSON value type (`Json`, mutual with arrays and objects so every
  function on it is structurally recursive) together with the
  `json.dumps(data, indent=2)` serializer used by `format_json`;
* Python's dynamically typed argument values (`PyVal`) with their
  truthiness, the `dict.get` / `dict[k]` access used on tool arguments;
* the transport client `UIMClient` (`_make_request` and the twelve
  operation methods), parametrised by an HTTP oracle `World` so every
  issued `Request` is recorded and every upstream outcome can be studied;
* the startup validation `init_uim_client` over an environment record;
* the dispatcher `call_tool`, split as in the source into the body of its
  `try` block (`call_tool_try`, which may end in a raised message) and the
  surrounding handler that converts a raised message into an error text.

The theorems at the end settle the specification claims about this code.
-/

/-! ## JSON values and the `format_json` serializer -/

mutual

/-- A JSON-compatible value, as decoded from an API response body or sent
as a request body. -/
inductive Json where
  | null : Json
  | bool (b : Bool) : Json
  | num (n : Int) : Json
  | str (s : String) : Json
  | arr (xs : JsonArr) : Json
  | obj (fs : JsonObj) : Json
deriving DecidableEq

/-- A JSON array (a Python list). -/
inductive JsonArr where
  | nil : JsonArr
  | cons (hd : Json) (tl : JsonArr) : JsonArr
deriving DecidableEq

/-- A JSON object (a Python dict), as an ordered association list. -/
inductive JsonObj where
  | nil : JsonObj
  | cons (key : String) (val : Json) (tl : JsonObj) : JsonObj
deriving DecidableEq

end

/-- Number of elements of a JSON array: Python `len` on a list. -/
def JsonArr.length : JsonArr → Nat
  | JsonArr.nil => 0
  | JsonArr.cons _ tl => 1 + tl.length

/-- Number of keys of a JSON object: Python `len` on a dict. -/
def JsonObj.length : JsonObj → Nat
  | JsonObj.nil => 0
  | JsonObj.cons _ _ tl => 1 + tl.length

/-- Python `len(x)` on a decoded JSON value: defined on lists, dicts and
strings, a `TypeError` (here: an error message) on numbers, booleans and
`None`. -/
def pyLen : Json → Except String Nat
  | Json.arr xs => Except.ok xs.length
  | Json.obj fs => Except.ok fs.length
  | Json.str s => Except.ok s.length
  | Json.num _ => Except.error "object of type 'int' has no len()"
  | Json.bool _ => Except.error "object of type 'bool' has no len()"
  | Json.null => Except.error "object of type 'NoneType' has no len()"

/-- The characters `json.dumps` writes for one string character (the
escapes for the common control and quoting characters). -/
def escapeChar (ch : Char) : List Char :=
  if ch = '"' then ['\\', '"']
  else if ch = '\\' then ['\\', '\\']
  else if ch = '\n' then ['\\', 'n']
  else if ch = '\t' then ['\\', 't']
  else if ch = '\r' then ['\\', 'r']
  else [ch]

/-- The body of a serialized JSON string. -/
def escapeString (s : String) : String :=
  String.mk (s.toList.map escapeChar).flatten

/-- `2 * n` spaces: the indentation prefix of depth `n` under `indent=2`. -/
def indentSpaces (n : Nat) : String :=
  String.mk (List.replicate (2 * n) ' ')

mutual

/-- `json.dumps(j, indent=2)` at nesting depth `ind`. -/
def jsonDump : Json → Nat → String
  | Json.null, _ => "null"
  | Json.bool true, _ => "true"
  | Json.bool false, _ => "false"
  | Json.num n, _ => toString n
  | Json.str s, _ => "\"" ++ escapeString s ++ "\""
  | Json.arr JsonArr.nil, _ => "[]"
  | Json.arr (JsonArr.cons x xs), ind =>
      "[\n" ++ jsonArrDump (JsonArr.cons x xs) (ind + 1) ++ "\n" ++ indentSpaces ind ++ "]"
  | Json.obj JsonObj.nil, _ => "\x7b\x7d"
  | Json.obj (JsonObj.cons k v fs), ind =>
      "\x7b\n" ++ jsonObjDump (JsonObj.cons k v fs) (ind + 1) ++ "\n" ++ indentSpaces ind ++ "\x7d"

/-- The comma-and-newline separated, indented lines of a nonempty array. -/
def jsonArrDump : JsonArr → Nat → String
  | JsonArr.nil, _ => ""
  | JsonArr.cons x JsonArr.nil, ind => indentSpaces ind ++ jsonDump x ind
  | JsonArr.cons x (JsonArr.cons y ys), ind =>
      indentSpaces ind ++ jsonDump x ind ++ ",\n" ++ jsonArrDump (JsonArr.cons y ys) ind

/-- The comma-and-newline separated, indented `"key": value` lines of a
nonempty object. -/
def jsonObjDump : JsonObj → Nat → String
  | JsonObj.nil, _ => ""
  | JsonObj.cons k v JsonObj.nil, ind =>
      indentSpaces ind ++ "\"" ++ escapeString k ++ "\": " ++ jsonDump v ind
  | JsonObj.cons k v (JsonObj.cons k2 v2 fs), ind =>
      indentSpaces ind ++ "\"" ++ escapeString k ++ "\": " ++ jsonDump v ind ++ ",\n" ++
        jsonObjDump (JsonObj.cons k2 v2 fs) ind

end

/-- `format_json` of the source: `json.dumps(data, indent=2)`. -/
def format_json (data : Json) : String :=
  jsonDump data 0

/-! ## Python argument values and the argument dictionary -/

/-- A dynamically typed Python value as it occurs in a tool argument
object: a string, an integer, or `None` (also the result of `dict.get` on
a missing key). -/
inductive PyVal where
  | str (s : String) : PyVal
  | int (n : Int) : PyVal
  | none : PyVal
deriving DecidableEq

/-- Python truthiness of an argument value: `None`, `""` and `0` are
falsy, everything else is truthy. -/
def pyTruthy : PyVal → Bool
  | PyVal.none => false
  | PyVal.str s => !s.isEmpty
  | PyVal.int n => n != 0

/-- Python `x is not None`. -/
def isNotNone : PyVal → Bool
  | PyVal.none => false
  | _ => true

/-- Python `str(x)` / f-string interpolation of an argument value. -/
def pyStr : PyVal → String
  | PyVal.str s => s
  | PyVal.int n => toString n
  | PyVal.none => "None"

/-- An argument value embedded into a JSON request body. -/
def pyToJson : PyVal → Json
  | PyVal.str s => Json.str s
  | PyVal.int n => Json.num n
  | PyVal.none => Json.null

/-- The tool argument object: a Python dict from argument names to values. -/
def Args : Type := List (String × PyVal)

/-- Whether the dict has an entry for key `k`. -/
def Args.hasKey (args : Args) (k : String) : Bool :=
  args.any (fun p => p.1 = k)

/-- Python `arguments.get(k)`: the stored value, or `None` when absent. -/
def Args.get (args : Args) (k : String) : PyVal :=
  match args.find? (fun p => p.1 = k) with
  | some p => p.2
  | Option.none => PyVal.none

/-- Python `arguments.get(k, d)`: the stored value, or `d` when absent. -/
def Args.getD (args : Args) (k : String) (d : PyVal) : PyVal :=
  match args.find? (fun p => p.1 = k) with
  | some p => p.2
  | Option.none => d

/-- Python `arguments[k]`: the stored value, or a raised `KeyError` whose
`str` is the key in single quotes. -/
def Args.getItem (args : Args) (k : String) : Except String PyVal :=
  match args.find? (fun p => p.1 = k) with
  | some p => Except.ok p.2
  | Option.none => Except.error ("'" ++ k ++ "'")

/-! ## The HTTP layer: requests, responses, `_make_request` -/

/-- One HTTP request as `requests.Session.request` receives it from the
client: method, full URL, query parameters, optional JSON body, headers,
basic-auth credentials and the TLS-verification flag. -/
structure Request where
  method : String
  url : String
  params : List (String × PyVal)
  body : Option Json
  headers : List (String × String)
  auth : String × String
  verify : Bool
deriving DecidableEq

/-- The outcome the HTTP transport produces for a request: a response with
a status code, a reason phrase and an optional (possibly empty) JSON body,
or a network-level failure (`requests.exceptions.RequestException`) with a
message. -/
inductive HttpResult where
  | resp (status : Nat) (reason : String) (body : Option Json) : HttpResult
  | exn (msg : String) : HttpResult

/-- The HTTP oracle: what the upstream server answers to each request. -/
def World : Type := Request → HttpResult

/-- `str.lstrip('/')`. -/
def lstripSlash (s : String) : String :=
  String.mk (s.toList.dropWhile (fun c => c = '/'))

/-- `str.rstrip('/')`. -/
def rstripSlash (s : String) : String :=
  String.mk ((s.toList.reverse.dropWhile (fun c => c = '/')).reverse)

/-- `requests.Response.raise_for_status`: raises an `HTTPError` whose
message carries the status code and reason for a 4xx or 5xx status, and
does nothing otherwise. -/
def raise_for_status (status : Nat) (reason : String) (url : String) : Except String Unit :=
  if 400 ≤ status ∧ status < 500 then
    Except.error (toString status ++ " Client Error: " ++ reason ++ " for url: " ++ url)
  else if 500 ≤ status ∧ status < 600 then
    Except.error (toString status ++ " Server Error: " ++ reason ++ " for url: " ++ url)
  else
    Except.ok ()

/-! ## The transport client `UIMClient` -/

/-- The connection state of `UIMClient.__init__`: base URL (stored with
trailing slashes removed), credentials, TLS flag. The session headers are
the constant pair set in `__init__` (see `sessionHeaders`). -/
structure UIMClient where
  base_url : String
  username : String
  password : String
  verify_ssl : Bool
deriving DecidableEq

/-- The headers `__init__` installs on the session: they accompany every
request the client ever issues. -/
def sessionHeaders : List (String × String) :=
  [("Accept", "application/json"), ("Content-Type", "application/json")]

/-- `UIMClient(base_url, username, password, verify_ssl)`: the constructor
strips trailing slashes from the base URL. -/
def UIMClient.ofConfig (base_url username password : String) (verify_ssl : Bool) : UIMClient :=
  { base_url := rstripSlash base_url
    username := username
    password := password
    verify_ssl := verify_ssl }

/-- `UIMClient._make_request`: build the URL from the base URL and the
endpoint (left-stripped of slashes), issue exactly one request through the
session, raise on a 4xx/5xx status or transport failure, and decode the
body — an empty body decodes to the empty object. The returned list
records the requests issued (always exactly one here). -/
def UIMClient.make_request (c : UIMClient) (world : World) (method : String)
    (endpoint : String) (params : List (String × PyVal)) (body : Option Json) :
    Except String Json × List Request :=
  let url := c.base_url ++ "/" ++ lstripSlash endpoint
  let req : Request :=
    { method := method
      url := url
      params := params
      body := body
      headers := sessionHeaders
      auth := (c.username, c.password)
      verify := c.verify_ssl }
  let res : Except String Json :=
    match world req with
    | HttpResult.exn msg => Except.error msg
    | HttpResult.resp status reason rbody =>
      match raise_for_status status reason url with
      | Except.error e => Except.error e
      | Except.ok _ =>
        Except.ok (match rbody with
          | Option.none => Json.obj JsonObj.nil
          | some j => j)
  (res, [req])

/-- `UIMClient.get_devices`: `GET /devices`, with `domain` and `hub` sent
as query parameters only when truthy. -/
def UIMClient.get_devices (c : UIMClient) (world : World) (domain hub : PyVal) :
    Except String Json × List Request :=
  let params :=
    (if pyTruthy domain then [("domain", domain)] else []) ++
    (if pyTruthy hub then [("hub", hub)] else [])
  c.make_request world "GET" "/devices" params Option.none

/-- `UIMClient.get_device_info`: `GET /devices/{device_id}`. -/
def UIMClient.get_device_info (c : UIMClient) (world : World) (device_id : PyVal) :
    Except String Json × List Request :=
  c.make_request world "GET" ("/devices/" ++ pyStr device_id) [] Option.none

/-- `UIMClient.get_alarms`: `GET /alarms`; `limit` is sent when truthy,
`severity` when not `None` (so `severity=0` is sent), `source` when
truthy — in that insertion order. -/
def UIMClient.get_alarms (c : UIMClient) (world : World) (severity source limit : PyVal) :
    Except String Json × List Request :=
  let params :=
    (if pyTruthy limit then [("limit", limit)] else []) ++
    (if isNotNone severity then [("severity", severity)] else []) ++
    (if pyTruthy source then [("source", source)] else [])
  c.make_request world "GET" "/alarms" params Option.none

/-- `UIMClient.get_alarm_summary`: `GET /alarms/summary`. -/
def UIMClient.get_alarm_summary (c : UIMClient) (world : World) :
    Except String Json × List Request :=
  c.make_request world "GET" "/alarms/summary" [] Option.none

/-- `UIMClient.acknowledge_alarm`: `PUT /alarms/{alarm_id}/ack` with JSON
body `{"message": message}` when `message` is truthy and `\x7b\x7d`
otherwise. -/
def UIMClient.acknowledge_alarm (c : UIMClient) (world : World) (alarm_id message : PyVal) :
    Except String Json × List Request :=
  let payload : Json :=
    Json.obj (if pyTruthy message
      then JsonObj.cons "message" (pyToJson message) JsonObj.nil
      else JsonObj.nil)
  c.make_request world "PUT" ("/alarms/" ++ pyStr alarm_id ++ "/ack") [] (some payload)

/-- `UIMClient.accept_alarm`: `PUT /alarms/{alarm_id}/accept`, no body. -/
def UIMClient.accept_alarm (c : UIMClient) (world : World) (alarm_id : PyVal) :
    Except String Json × List Request :=
  c.make_request world "PUT" ("/alarms/" ++ pyStr alarm_id ++ "/accept") [] Option.none

/-- `UIMClient.assign_alarm`: `PUT /alarms/{alarm_id}/assign/{username}`,
no body. -/
def UIMClient.assign_alarm (c : UIMClient) (world : World) (alarm_id username : PyVal) :
    Except String Json × List Request :=
  c.make_request world "PUT"
    ("/alarms/" ++ pyStr alarm_id ++ "/assign/" ++ pyStr username) [] Option.none

/-- `UIMClient.get_metrics`: `GET /metrics`. -/
def UIMClient.get_metrics (c : UIMClient) (world : World) :
    Except String Json × List Request :=
  c.make_request world "GET" "/metrics" [] Option.none

/-- `UIMClient.get_metric_definitions`:
`GET /configuration_items/metricdefinitions`. -/
def UIMClient.get_metric_definitions (c : UIMClient) (world : World) :
    Except String Json × List Request :=
  c.make_request world "GET" "/configuration_items/metricdefinitions" [] Option.none

/-- `UIMClient.get_metric_by_id`:
`GET /configuration_items/metrics/{metric_id}`. -/
def UIMClient.get_metric_by_id (c : UIMClient) (world : World) (metric_id : PyVal) :
    Except String Json × List Request :=
  c.make_request world "GET" ("/configuration_items/metrics/" ++ pyStr metric_id) []
    Option.none

/-- `UIMClient.get_probes`: `GET /probes`. -/
def UIMClient.get_probes (c : UIMClient) (world : World) :
    Except String Json × List Request :=
  c.make_request world "GET" "/probes" [] Option.none

/-- `UIMClient.get_robots`: `GET /robots`. -/
def UIMClient.get_robots (c : UIMClient) (world : World) :
    Except String Json × List Request :=
  c.make_request world "GET" "/robots" [] Option.none

/-! ## Startup: environment and `init_uim_client` -/

/-- The environment variables the server reads at startup (each `none`
when unset). -/
structure Env where
  UIM_BASE_URL : Option String
  UIM_USERNAME : Option String
  UIM_PASSWORD : Option String
  UIM_VERIFY_SSL : Option String

/-- Python truthiness of `os.getenv`'s result: unset (`None`) and the
empty string are falsy. -/
def pyTruthyOptStr : Option String → Bool
  | Option.none => false
  | some s => !s.isEmpty

/-- `init_uim_client`: read the four variables, raise a `ValueError`
naming the three required variables when `not all([base_url, username,
password])`, and construct the client otherwise (`UIM_VERIFY_SSL`
defaults to `"true"` and is compared case-insensitively against
`"true"`). The `getD ""` defaults on the success branch are never the
taken value: there the three variables are nonempty strings. -/
def init_uim_client (env : Env) : Except String UIMClient :=
  let base_url := env.UIM_BASE_URL
  let username := env.UIM_USERNAME
  let password := env.UIM_PASSWORD
  let verify_ssl := (env.UIM_VERIFY_SSL.getD "true").toLower == "true"
  if !(pyTruthyOptStr base_url && pyTruthyOptStr username && pyTruthyOptStr password) then
    Except.error
      "Missing required environment variables: UIM_BASE_URL, UIM_USERNAME, UIM_PASSWORD"
  else
    Except.ok
      (UIMClient.ofConfig (base_url.getD "") (username.getD "") (password.getD "") verify_ssl)

/-! ## The dispatcher `call_tool` -/

/-- `mcp.types.TextContent(type="text", text=...)`. -/
structure TextContent where
  type : String
  text : String
deriving DecidableEq

/-- The body of `call_tool`'s `try` block: one branch per tool name, each
extracting its arguments (a missing required key raises the `KeyError`
of `Args.getItem`), invoking the client operation (whose raised errors
propagate), and rendering the result; the final branch answers an unknown
tool name with an error text (without raising). The returned list records
the HTTP requests issued. -/
def call_tool_try (c : UIMClient) (world : World) (name : String) (arguments : Args) :
    Except String (List TextContent) × List Request :=
  if name = "list_devices" then
    match c.get_devices world (arguments.get "domain") (arguments.get "hub") with
    | (Except.error e, log) => (Except.error e, log)
    | (Except.ok result, log) =>
      match pyLen result with
      | Except.error e => (Except.error e, log)
      | Except.ok n =>
        (Except.ok [⟨"text", "Found " ++ toString n ++ " devices:\n\n" ++ format_json result⟩],
         log)
  else if name = "get_device_info" then
    match arguments.getItem "device_id" with
    | Except.error e => (Except.error e, [])
    | Except.ok device_id =>
      match c.get_device_info world device_id with
      | (Except.error e, log) => (Except.error e, log)
      | (Except.ok result, log) =>
        (Except.ok [⟨"text", "Device Information:\n\n" ++ format_json result⟩], log)
  else if name = "list_alarms" then
    match c.get_alarms world (arguments.get "severity") (arguments.get "source")
        (arguments.getD "limit" (PyVal.int 100)) with
    | (Except.error e, log) => (Except.error e, log)
    | (Except.ok result, log) =>
      match pyLen result with
      | Except.error e => (Except.error e, log)
      | Except.ok n =>
        (Except.ok [⟨"text", "Found " ++ toString n ++ " alarms:\n\n" ++ format_json result⟩],
         log)
  else if name = "get_alarm_summary" then
    match c.get_alarm_summary world with
    | (Except.error e, log) => (Except.error e, log)
    | (Except.ok result, log) =>
      (Except.ok [⟨"text", "Alarm Summary:\n\n" ++ format_json result⟩], log)
  else if name = "acknowledge_alarm" then
    match arguments.getItem "alarm_id" with
    | Except.error e => (Except.error e, [])
    | Except.ok alarm_id =>
      match c.acknowledge_alarm world alarm_id (arguments.get "message") with
      | (Except.error e, log) => (Except.error e, log)
      | (Except.ok result, log) =>
        (Except.ok [⟨"text", "Alarm acknowledged successfully:\n\n" ++ format_json result⟩],
         log)
  else if name = "accept_alarm" then
    match arguments.getItem "alarm_id" with
    | Except.error e => (Except.error e, [])
    | Except.ok alarm_id =>
      match c.accept_alarm world alarm_id with
      | (Except.error e, log) => (Except.error e, log)
      | (Except.ok result, log) =>
        (Except.ok [⟨"text", "Alarm accepted successfully:\n\n" ++ format_json result⟩], log)
  else if name = "assign_alarm" then
    match arguments.getItem "alarm_id" with
    | Except.error e => (Except.error e, [])
    | Except.ok alarm_id =>
      match arguments.getItem "username" with
      | Except.error e => (Except.error e, [])
      | Except.ok username =>
        match c.assign_alarm world alarm_id username with
        | (Except.error e, log) => (Except.error e, log)
        | (Except.ok result, log) =>
          (Except.ok [⟨"text", "Alarm assigned successfully to " ++ pyStr username ++
             ":\n\n" ++ format_json result⟩], log)
  else if name = "list_metrics" then
    match c.get_metrics world with
    | (Except.error e, log) => (Except.error e, log)
    | (Except.ok result, log) =>
      match pyLen result with
      | Except.error e => (Except.error e, log)
      | Except.ok n =>
        (Except.ok [⟨"text", "Found " ++ toString n ++ " metrics:\n\n" ++ format_json result⟩],
         log)
  else if name = "get_metric_definitions" then
    match c.get_metric_definitions world with
    | (Except.error e, log) => (Except.error e, log)
    | (Except.ok result, log) =>
      (Except.ok [⟨"text", "Metric Definitions:\n\n" ++ format_json result⟩], log)
  else if name = "get_metric_by_id" then
    match arguments.getItem "metric_id" with
    | Except.error e => (Except.error e, [])
    | Except.ok metric_id =>
      match c.get_metric_by_id world metric_id with
      | (Except.error e, log) => (Except.error e, log)
      | (Except.ok result, log) =>
        (Except.ok [⟨"text", "Metric Data:\n\n" ++ format_json result⟩], log)
  else if name = "list_probes" then
    match c.get_probes world with
    | (Except.error e, log) => (Except.error e, log)
    | (Except.ok result, log) =>
      match pyLen result with
      | Except.error e => (Except.error e, log)
      | Except.ok n =>
        (Except.ok [⟨"text", "Found " ++ toString n ++ " probes:\n\n" ++ format_json result⟩],
         log)
  else if name = "list_robots" then
    match c.get_robots world with
    | (Except.error e, log) => (Except.error e, log)
    | (Except.ok result, log) =>
      match pyLen result with
      | Except.error e => (Except.error e, log)
      | Except.ok n =>
        (Except.ok [⟨"text", "Found " ++ toString n ++ " robots:\n\n" ++ format_json result⟩],
         log)
  else
    (Except.ok [⟨"text", "Error: Unknown tool '" ++ name ++ "'"⟩], [])

/-- `call_tool`: answer with a single error text when the module-level
client is uninitialized, otherwise run the `try` block and convert a
raised message `e` into the single response `Error: e`. -/
def call_tool (client : Option UIMClient) (world : World) (name : String) (arguments : Args) :
    List TextContent × List Request :=
  match client with
  | Option.none =>
    ([⟨"text", "Error: UIM client not initialized. Please check environment variables."⟩], [])
  | some c =>
    match call_tool_try c world name arguments with
    | (Except.ok texts, log) => (texts, log)
    | (Except.error e, log) => ([⟨"text", "Error: " ++ e⟩], log)

/-- The names of the twelve tools the dispatcher knows (the tool names of
`list_tools`). -/
def knownToolNames : List String :=
  ["list_devices", "get_device_info", "list_alarms", "get_alarm_summary",
   "acknowledge_alarm", "accept_alarm", "assign_alarm", "list_metrics",
   "get_metric_definitions", "get_metric_by_id", "list_probes", "list_robots"]

/-- `main`, with the framework's stdio loop abstracted as the list of
incoming calls: initialize the client first — a failure is re-raised
before any call is served — then answer each call through `call_tool`. -/
def mainServe (env : Env) (world : World) (calls : List (String × Args)) :
    Except String (List (List TextContent)) :=
  match init_uim_client env with
  | Except.error e => Except.error e
  | Except.ok c => Except.ok (calls.map (fun p => (call_tool (some c) world p.1 p.2).1))

/-! ## Observers used to state the claims -/

/-- Whether a computation raised. -/
def exceptIsError {α : Type} : Except String α → Bool
  | Except.error _ => true
  | Except.ok _ => false

/-- The raised message (the empty string on a success). -/
def exceptErr {α : Type} : Except String α → String
  | Except.error e => e
  | Except.ok _ => ""

/-- A placeholder request, only the default of `reqHead` on an empty log. -/
def dummyRequest : Request :=
  { method := "", url := "", params := [], body := Option.none, headers := [],
    auth := ("", ""), verify := false }

/-- The first recorded request of a log. -/
def reqHead (log : List Request) : Request :=
  log.headD dummyRequest

/-- The text of the first content element of a response. -/
def textHead (resp : List TextContent) : String :=
  (resp.headD ⟨"text", ""⟩).text

/-- Whether `p` is a prefix of `l`. -/
def prefixOfList : List Char → List Char → Bool
  | [], _ => true
  | _ :: _, [] => false
  | a :: as, b :: bs => a = b && prefixOfList as bs

/-- Whether `pat` occurs as a contiguous run inside `hay` (as a prefix
here, or anywhere in the tail). -/
def containsList (pat : List Char) : List Char → Bool
  | [] => prefixOfList pat []
  | c :: t => prefixOfList pat (c :: t) || containsList pat t

/-- Whether the string `pat` occurs inside `s`. -/
def strContains (s pat : String) : Bool :=
  containsList pat.toList s.toList

/-- Whether the string `s` starts with `pat`. -/
def strStartsWith (s pat : String) : Bool :=
  prefixOfList pat.toList s.toList

/-! ## Concrete fixtures for witnesses and counterexamples -/

/-- A concrete client configuration. -/
def sampleClient : UIMClient :=
  { base_url := "http://uim", username := "admin", password := "secret", verify_ssl := true }

/-- An upstream that answers every request `200 OK` with the empty object. -/
def worldOkObj : World := fun _ => HttpResult.resp 200 "OK" (some (Json.obj JsonObj.nil))

/-- An upstream that answers every request `200 OK` with the empty list. -/
def worldOkEmptyList : World := fun _ => HttpResult.resp 200 "OK" (some (Json.arr JsonArr.nil))

/-- An upstream that answers every request `404 Not Found` with an empty
body. -/
def world404 : World := fun _ => HttpResult.resp 404 "Not Found" Option.none

/-- An upstream that answers every request `304 Not Modified` with an
empty body. -/
def world304 : World := fun _ => HttpResult.resp 304 "Not Modified" Option.none

/-- An upstream on which every request fails at the network level. -/
def worldBoom : World := fun _ => HttpResult.exn "boom"

/-! ## Helper lemmas -/

theorem prefixOfList_append (p t : List Char) : prefixOfList p (p ++ t) = true := by
  induction p with
  | nil => rfl
  | cons a as ih => simp [prefixOfList, ih]

theorem containsList_of_pref (pat hay : List Char) (h : prefixOfList pat hay = true) :
    containsList pat hay = true := by
  cases hay with
  | nil => simpa [containsList] using h
  | cons c t => simp [containsList, h]

theorem containsList_cons (pat : List Char) (c : Char) (t : List Char)
    (h : containsList pat t = true) : containsList pat (c :: t) = true := by
  simp [containsList, h]

theorem containsList_append (pat pre suf : List Char) :
    containsList pat (pre ++ (pat ++ suf)) = true := by
  induction pre with
  | nil => exact containsList_of_pref _ _ (prefixOfList_append pat suf)
  | cons c cs ih => exact containsList_cons _ _ _ ih

theorem strContains_mid (pre pat suf : String) :
    strContains (pre ++ pat ++ suf) pat = true := by
  have h : (pre ++ pat ++ suf).toList = pre.toList ++ (pat.toList ++ suf.toList) := by
    simp [String.toList, String.data_append]
  simp [strContains, h, containsList_append]

theorem strStartsWith_append (pat suf : String) :
    strStartsWith (pat ++ suf) pat = true := by
  have h : (pat ++ suf).toList = pat.toList ++ suf.toList := by
    simp [String.toList, String.data_append]
  simp [strStartsWith, h, prefixOfList_append]

theorem getItem_of_not_hasKey (args : Args) (k : String) (h : args.hasKey k = false) :
    args.getItem k = Except.error ("'" ++ k ++ "'") := by
  unfold Args.getItem
  cases hf : args.find? (fun p => p.1 = k) with
  | none => rfl
  | some p =>
    exfalso
    have hp := List.find?_some hf
    have hm := List.mem_of_find?_eq_some hf
    have : args.hasKey k = true := by
      unfold Args.hasKey
      exact List.any_eq_true.mpr ⟨p, hm, hp⟩
    simp [this] at h

theorem getItem_of_hasKey (args : Args) (k : String) (h : args.hasKey k = true) :
    ∃ v, args.getItem k = Except.ok v := by
  unfold Args.getItem
  cases hf : args.find? (fun p => p.1 = k) with
  | none =>
    exfalso
    unfold Args.hasKey at h
    obtain ⟨p, hm, hp⟩ := List.any_eq_true.mp h
    have := List.find?_eq_none.mp hf p hm
    simp [hp] at this
  | some p => exact ⟨p.2, rfl⟩

theorem getD_of_not_hasKey (args : Args) (k : String) (d : PyVal)
    (h : args.hasKey k = false) : args.getD k d = d := by
  unfold Args.getD
  cases hf : args.find? (fun p => p.1 = k) with
  | none => rfl
  | some p =>
    exfalso
    have hp := List.find?_some hf
    have hm := List.mem_of_find?_eq_some hf
    have : args.hasKey k = true := by
      unfold Args.hasKey
      exact List.any_eq_true.mpr ⟨p, hm, hp⟩
    simp [this] at h

theorem get_of_not_hasKey (args : Args) (k : String)
    (h : args.hasKey k = false) : args.get k = PyVal.none := by
  unfold Args.get
  cases hf : args.find? (fun p => p.1 = k) with
  | none => rfl
  | some p =>
    exfalso
    have hp := List.find?_some hf
    have hm := List.mem_of_find?_eq_some hf
    have : args.hasKey k = true := by
      unfold Args.hasKey
      exact List.any_eq_true.mpr ⟨p, hm, hp⟩
    simp [this] at h

/-- Every branch of the `try` block that ends normally (without raising)
ends in a single-element content list. -/
theorem call_tool_try_ok_length (c : UIMClient) (world : World) (name : String)
    (arguments : Args) (texts : List TextContent) (log : List Request)
    (h : call_tool_try c world name arguments = (Except.ok texts, log)) :
    texts.length = 1 := by
  by_cases h1 : name = "list_devices"
  · subst h1
    rcases hop : c.get_devices world (arguments.get "domain") (arguments.get "hub") with ⟨r, l⟩
    rcases r with e | result
    · simp [call_tool_try, hop] at h
    · rcases hl : pyLen result with e | n
      · simp [call_tool_try, hop, hl] at h
      · simp [call_tool_try, hop, hl] at h
        obtain ⟨hts, hlog⟩ := h
        subst hts
        rfl
  by_cases h2 : name = "get_device_info"
  · subst h2
    rcases hi : arguments.getItem "device_id" with e | did
    · simp [call_tool_try, h1, hi] at h
    · rcases hop : c.get_device_info world did with ⟨r, l⟩
      rcases r with e | result
      · simp [call_tool_try, h1, hi, hop] at h
      · simp [call_tool_try, h1, hi, hop] at h
        obtain ⟨hts, hlog⟩ := h
        subst hts
        rfl
  by_cases h3 : name = "list_alarms"
  · subst h3
    rcases hop : c.get_alarms world (arguments.get "severity") (arguments.get "source")
        (arguments.getD "limit" (PyVal.int 100)) with ⟨r, l⟩
    rcases r with e | result
    · simp [call_tool_try, h1, h2, hop] at h
    · rcases hl : pyLen result with e | n
      · simp [call_tool_try, h1, h2, hop, hl] at h
      · simp [call_tool_try, h1, h2, hop, hl] at h
        obtain ⟨hts, hlog⟩ := h
        subst hts
        rfl
  by_cases h4 : name = "get_alarm_summary"
  · subst h4
    rcases hop : c.get_alarm_summary world with ⟨r, l⟩
    rcases r with e | result
    · simp [call_tool_try, h1, h2, h3, hop] at h
    · simp [call_tool_try, h1, h2, h3, hop] at h
      obtain ⟨hts, hlog⟩ := h
      subst hts
      rfl
  by_cases h5 : name = "acknowledge_alarm"
  · subst h5
    rcases hi : arguments.getItem "alarm_id" with e | aid
    · simp [call_tool_try, h1, h2, h3, h4, hi] at h
    · rcases hop : c.acknowledge_alarm world aid (arguments.get "message") with ⟨r, l⟩
      rcases r with e | result
      · simp [call_tool_try, h1, h2, h3, h4, hi, hop] at h
      · simp [call_tool_try, h1, h2, h3, h4, hi, hop] at h
        obtain ⟨hts, hlog⟩ := h
        subst hts
        rfl
  by_cases h6 : name = "accept_alarm"
  · subst h6
    rcases hi : arguments.getItem "alarm_id" with e | aid
    · simp [call_tool_try, h1, h2, h3, h4, h5, hi] at h
    · rcases hop : c.accept_alarm world aid with ⟨r, l⟩
      rcases r with e | result
      · simp [call_tool_try, h1, h2, h3, h4, h5, hi, hop] at h
      · simp [call_tool_try, h1, h2, h3, h4, h5, hi, hop] at h
        obtain ⟨hts, hlog⟩ := h
        subst hts
        rfl
  by_cases h7 : name = "assign_alarm"
  · subst h7
    rcases hi : arguments.getItem "alarm_id" with e | aid
    · simp [call_tool_try, h1, h2, h3, h4, h5, h6, hi] at h
    · rcases hu : arguments.getItem "username" with e | usr
      · simp [call_tool_try, h1, h2, h3, h4, h5, h6, hi, hu] at h
      · rcases hop : c.assign_alarm world aid usr with ⟨r, l⟩
        rcases r with e | result
        · simp [call_tool_try, h1, h2, h3, h4, h5, h6, hi, hu, hop] at h
        · simp [call_tool_try, h1, h2, h3, h4, h5, h6, hi, hu, hop] at h
          obtain ⟨hts, hlog⟩ := h
          subst hts
          rfl
  by_cases h8 : name = "list_metrics"
  · subst h8
    rcases hop : c.get_metrics world with ⟨r, l⟩
    rcases r with e | result
    · simp [call_tool_try, h1, h2, h3, h4, h5, h6, h7, hop] at h
    · rcases hl : pyLen result with e | n
      · simp [call_tool_try, h1, h2, h3, h4, h5, h6, h7, hop, hl] at h
      · simp [call_tool_try, h1, h2, h3, h4, h5, h6, h7, hop, hl] at h
        obtain ⟨hts, hlog⟩ := h
        subst hts
        rfl
  by_cases h9 : name = "get_metric_definitions"
  · subst h9
    rcases hop : c.get_metric_definitions world with ⟨r, l⟩
    rcases r with e | result
    · simp [call_tool_try, h1, h2, h3, h4, h5, h6, h7, h8, hop] at h
    · simp [call_tool_try, h1, h2, h3, h4, h5, h6, h7, h8, hop] at h
      obtain ⟨hts, hlog⟩ := h
      subst hts
      rfl
  by_cases h10 : name = "get_metric_by_id"
  · subst h10
    rcases hi : arguments.getItem "metric_id" with e | mid
    · simp [call_tool_try, h1, h2, h3, h4, h5, h6, h7, h8, h9, hi] at h
    · rcases hop : c.get_metric_by_id world mid with ⟨r, l⟩
      rcases r with e | result
      · simp [call_tool_try, h1, h2, h3, h4, h5, h6, h7, h8, h9, hi, hop] at h
      · simp [call_tool_try, h1, h2, h3, h4, h5, h6, h7, h8, h9, hi, hop] at h
        obtain ⟨hts, hlog⟩ := h
        subst hts
        rfl
  by_cases h11 : name = "list_probes"
  · subst h11
    rcases hop : c.get_probes world with ⟨r, l⟩
    rcases r with e | result
    · simp [call_tool_try, h1, h2, h3, h4, h5, h6, h7, h8, h9, h10, hop] at h
    · rcases hl : pyLen result with e | n
      · simp [call_tool_try, h1, h2, h3, h4, h5, h6, h7, h8, h9, h10, hop, hl] at h
      · simp [call_tool_try, h1, h2, h3, h4, h5, h6, h7, h8, h9, h10, hop, hl] at h
        obtain ⟨hts, hlog⟩ := h
        subst hts
        rfl
  by_cases h12 : name = "list_robots"
  · subst h12
    rcases hop : c.get_robots world with ⟨r, l⟩
    rcases r with e | result
    · simp [call_tool_try, h1, h2, h3, h4, h5, h6, h7, h8, h9, h10, h11, hop] at h
    · rcases hl : pyLen result with e | n
      · simp [call_tool_try, h1, h2, h3, h4, h5, h6, h7, h8, h9, h10, h11, hop, hl] at h
      · simp [call_tool_try, h1, h2, h3, h4, h5, h6, h7, h8, h9, h10, h11, hop, hl] at h
        obtain ⟨hts, hlog⟩ := h
        subst hts
        rfl
  · simp [call_tool_try, h1, h2, h3, h4, h5, h6, h7, h8, h9, h10, h11, h12] at h
    obtain ⟨hts, hlog⟩ := h
    subst hts
    rfl

theorem prefixOfList_refl (p : List Char) : prefixOfList p p = true := by
  induction p with
  | nil => rfl
  | cons a as ih => simp [prefixOfList, ih]

theorem prefixOfList_extend (p a b : List Char) (h : prefixOfList p a = true) :
    prefixOfList p (a ++ b) = true := by
  induction p generalizing a with
  | nil => rfl
  | cons x xs ih =>
    cases a with
    | nil => simp [prefixOfList] at h
    | cons y ys =>
      simp [prefixOfList] at h ⊢
      exact ⟨h.1, ih ys h.2⟩

theorem containsList_append_left (pat a b : List Char) (h : containsList pat a = true) :
    containsList pat (a ++ b) = true := by
  induction a with
  | nil =>
    simp [containsList] at h
    exact containsList_of_pref _ _ (prefixOfList_extend _ _ _ h)
  | cons c cs ih =>
    simp [containsList] at h
    rcases h with h | h
    · exact containsList_of_pref _ _ (prefixOfList_extend _ _ _ h)
    · exact containsList_cons _ _ _ (ih h)

theorem containsList_append_right (pat a b : List Char) (h : containsList pat b = true) :
    containsList pat (a ++ b) = true := by
  induction a with
  | nil => exact h
  | cons c cs ih => exact containsList_cons _ _ _ ih

theorem strContains_append_left (s t pat : String) (h : strContains s pat = true) :
    strContains (s ++ t) pat = true := by
  have hd : (s ++ t).toList = s.toList ++ t.toList := by
    simp [String.toList, String.data_append]
  simpa [strContains, hd] using containsList_append_left _ _ _ h

theorem strContains_append_right (s t pat : String) (h : strContains t pat = true) :
    strContains (s ++ t) pat = true := by
  have hd : (s ++ t).toList = s.toList ++ t.toList := by
    simp [String.toList, String.data_append]
  simpa [strContains, hd] using containsList_append_right _ _ _ h

theorem strContains_self (s : String) : strContains s s = true :=
  containsList_of_pref _ _ (prefixOfList_refl _)

theorem lstripSlash_alarms (s : String) : lstripSlash ("/alarms/" ++ s) = "alarms/" ++ s := by
  apply String.ext
  simp [lstripSlash, String.toList, String.data_append]

/-! ## The claims -/

/-- Claim C2: for every operation name and every argument object, calling
the dispatcher with an uninitialized client (`None`) returns exactly the
single uninitialized-client error response and issues zero HTTP requests
(no client method is invoked). -/
theorem uninitialized_client_single_error_no_requests (world : World) (name : String)
    (arguments : Args) :
    call_tool Option.none world name arguments =
      ([⟨"text", "Error: UIM client not initialized. Please check environment variables."⟩],
       []) := rfl

/-- Claim C10: for every operation name (known or unknown), every argument
object, every client state and every upstream behaviour, the dispatcher
returns a list with exactly one text content element. -/
theorem dispatcher_single_response_invariant (client : Option UIMClient) (world : World)
    (name : String) (arguments : Args) :
    (call_tool client world name arguments).1.length = 1 := by
  cases client with
  | none => rfl
  | some c =>
    rcases h : call_tool_try c world name arguments with ⟨r, log⟩
    rcases r with e | texts
    · simp [call_tool, h]
    · have hlen := call_tool_try_ok_length c world name arguments texts log h
      simp [call_tool, h, hlen]

/-- Claim C1: for every known operation name and every argument object,
whenever the body of the dispatcher's `try` block raises (argument
extraction, client invocation or rendering), the dispatcher catches it and
returns the single-element textual response `Error: <message>`; since
`call_tool` is a total function, no exception propagates out of a tool
invocation. -/
theorem dispatcher_catches_all_errors (c : UIMClient) (world : World) (name : String)
    (arguments : Args) (e : String) (hname : name ∈ knownToolNames)
    (h : (call_tool_try c world name arguments).1 = Except.error e) :
    (call_tool (some c) world name arguments).1 = [⟨"text", "Error: " ++ e⟩] := by
  rcases hh : call_tool_try c world name arguments with ⟨r, log⟩
  rw [hh] at h
  have hr : r = Except.error e := h
  subst hr
  simp [call_tool, hh]

/-- The dispatcher converts the network failure raised inside
`list_devices` into the response `Error: boom`. -/
theorem dispatcher_catches_all_errors_witness :
    (call_tool (some sampleClient) worldBoom "list_devices" []).1 =
      [⟨"text", "Error: " ++ "boom"⟩] :=
  dispatcher_catches_all_errors sampleClient worldBoom "list_devices" [] "boom"
    (by decide) rfl

/-- Claim C3: for each list-shaped operation, whenever the transport
client returns a list `xs`, the rendered response is the one-line summary
whose count is the length of `xs`, followed by the indented serialization
of the full payload; an empty list yields count 0. -/
theorem list_summary_count_matches_length (c : UIMClient) (world : World) (args : Args)
    (xs : JsonArr) :
    ((c.get_devices world (args.get "domain") (args.get "hub")).1 =
        Except.ok (Json.arr xs) →
      (call_tool (some c) world "list_devices" args).1 =
        [⟨"text", "Found " ++ toString xs.length ++ " devices:\n\n" ++
          format_json (Json.arr xs)⟩]) ∧
    ((c.get_alarms world (args.get "severity") (args.get "source")
          (args.getD "limit" (PyVal.int 100))).1 = Except.ok (Json.arr xs) →
      (call_tool (some c) world "list_alarms" args).1 =
        [⟨"text", "Found " ++ toString xs.length ++ " alarms:\n\n" ++
          format_json (Json.arr xs)⟩]) ∧
    ((c.get_metrics world).1 = Except.ok (Json.arr xs) →
      (call_tool (some c) world "list_metrics" args).1 =
        [⟨"text", "Found " ++ toString xs.length ++ " metrics:\n\n" ++
          format_json (Json.arr xs)⟩]) ∧
    ((c.get_probes world).1 = Except.ok (Json.arr xs) →
      (call_tool (some c) world "list_probes" args).1 =
        [⟨"text", "Found " ++ toString xs.length ++ " probes:\n\n" ++
          format_json (Json.arr xs)⟩]) ∧
    ((c.get_robots world).1 = Except.ok (Json.arr xs) →
      (call_tool (some c) world "list_robots" args).1 =
        [⟨"text", "Found " ++ toString xs.length ++ " robots:\n\n" ++
          format_json (Json.arr xs)⟩]) := by
  refine ⟨fun h => ?_, fun h => ?_, fun h => ?_, fun h => ?_, fun h => ?_⟩
  · rcases hop : c.get_devices world (args.get "domain") (args.get "hub") with ⟨r, l⟩
    rw [hop] at h
    have hr : r = Except.ok (Json.arr xs) := h
    subst hr
    simp [call_tool, call_tool_try, hop, pyLen]
  · rcases hop : c.get_alarms world (args.get "severity") (args.get "source")
        (args.getD "limit" (PyVal.int 100)) with ⟨r, l⟩
    rw [hop] at h
    have hr : r = Except.ok (Json.arr xs) := h
    subst hr
    simp [call_tool, call_tool_try, hop, pyLen]
  · rcases hop : c.get_metrics world with ⟨r, l⟩
    rw [hop] at h
    have hr : r = Except.ok (Json.arr xs) := h
    subst hr
    simp [call_tool, call_tool_try, hop, pyLen]
  · rcases hop : c.get_probes world with ⟨r, l⟩
    rw [hop] at h
    have hr : r = Except.ok (Json.arr xs) := h
    subst hr
    simp [call_tool, call_tool_try, hop, pyLen]
  · rcases hop : c.get_robots world with ⟨r, l⟩
    rw [hop] at h
    have hr : r = Except.ok (Json.arr xs) := h
    subst hr
    simp [call_tool, call_tool_try, hop, pyLen]

/-- Against an upstream returning the empty list, the five list-shaped
operations all render a count of 0. -/
theorem list_summary_count_matches_length_witness :
    (call_tool (some sampleClient) worldOkEmptyList "list_devices" []).1 =
      [⟨"text", "Found 0 devices:\n\n[]"⟩] ∧
    (call_tool (some sampleClient) worldOkEmptyList "list_alarms" []).1 =
      [⟨"text", "Found 0 alarms:\n\n[]"⟩] ∧
    (call_tool (some sampleClient) worldOkEmptyList "list_metrics" []).1 =
      [⟨"text", "Found 0 metrics:\n\n[]"⟩] ∧
    (call_tool (some sampleClient) worldOkEmptyList "list_probes" []).1 =
      [⟨"text", "Found 0 probes:\n\n[]"⟩] ∧
    (call_tool (some sampleClient) worldOkEmptyList "list_robots" []).1 =
      [⟨"text", "Found 0 robots:\n\n[]"⟩] := by
  have h := list_summary_count_matches_length sampleClient worldOkEmptyList [] JsonArr.nil
  exact ⟨(h.1 rfl).trans (by decide), (h.2.1 rfl).trans (by decide),
    (h.2.2.1 rfl).trans (by decide), (h.2.2.2.1 rfl).trans (by decide),
    (h.2.2.2.2 rfl).trans (by decide)⟩

/-- Claim C6: for every operation with a required argument, calling with
that argument absent yields the caught `KeyError` as a textual error
response naming the missing argument (not an unhandled fault), and no
HTTP request is attempted. -/
theorem missing_required_arg_error_no_request (c : UIMClient) (world : World) (args : Args) :
    (args.hasKey "device_id" = false →
      call_tool (some c) world "get_device_info" args =
        ([⟨"text", "Error: 'device_id'"⟩], [])) ∧
    (args.hasKey "alarm_id" = false →
      call_tool (some c) world "acknowledge_alarm" args =
          ([⟨"text", "Error: 'alarm_id'"⟩], []) ∧
      call_tool (some c) world "accept_alarm" args = ([⟨"text", "Error: 'alarm_id'"⟩], []) ∧
      call_tool (some c) world "assign_alarm" args = ([⟨"text", "Error: 'alarm_id'"⟩], [])) ∧
    (args.hasKey "alarm_id" = true → args.hasKey "username" = false →
      call_tool (some c) world "assign_alarm" args = ([⟨"text", "Error: 'username'"⟩], [])) ∧
    (args.hasKey "metric_id" = false →
      call_tool (some c) world "get_metric_by_id" args =
        ([⟨"text", "Error: 'metric_id'"⟩], [])) := by
  refine ⟨fun h => ?_, fun h => ⟨?_, ?_, ?_⟩, fun h1 h2 => ?_, fun h => ?_⟩
  · simp [call_tool, call_tool_try, getItem_of_not_hasKey args "device_id" h]
  · simp [call_tool, call_tool_try, getItem_of_not_hasKey args "alarm_id" h]
  · simp [call_tool, call_tool_try, getItem_of_not_hasKey args "alarm_id" h]
  · simp [call_tool, call_tool_try, getItem_of_not_hasKey args "alarm_id" h]
  · obtain ⟨v, hv⟩ := getItem_of_hasKey args "alarm_id" h1
    simp [call_tool, call_tool_try, hv, getItem_of_not_hasKey args "username" h2]
  · simp [call_tool, call_tool_try, getItem_of_not_hasKey args "metric_id" h]

/-- With an empty argument object, each operation with a required
argument answers with the error naming its missing argument and issues no
request; with only `alarm_id` supplied, `assign_alarm` reports the
missing `username`. -/
theorem missing_required_arg_error_no_request_witness :
    call_tool (some sampleClient) worldOkObj "get_device_info" [] =
      ([⟨"text", "Error: 'device_id'"⟩], []) ∧
    call_tool (some sampleClient) worldOkObj "acknowledge_alarm" [] =
      ([⟨"text", "Error: 'alarm_id'"⟩], []) ∧
    call_tool (some sampleClient) worldOkObj "assign_alarm"
        [("alarm_id", PyVal.str "A1")] =
      ([⟨"text", "Error: 'username'"⟩], []) ∧
    call_tool (some sampleClient) worldOkObj "get_metric_by_id" [] =
      ([⟨"text", "Error: 'metric_id'"⟩], []) := by
  refine ⟨(missing_required_arg_error_no_request sampleClient worldOkObj []).1 rfl,
    ((missing_required_arg_error_no_request sampleClient worldOkObj []).2.1 rfl).1,
    (missing_required_arg_error_no_request sampleClient worldOkObj
      [("alarm_id", PyVal.str "A1")]).2.2.1 (by decide) (by decide),
    (missing_required_arg_error_no_request sampleClient worldOkObj []).2.2.2 rfl⟩

/-- The single request `get_alarms` issues, with its parameter dict built
from `limit` (when truthy), `severity` (when not `None`) and `source`
(when truthy), in insertion order. -/
theorem get_alarms_log (c : UIMClient) (world : World) (sev src lim : PyVal) :
    (c.get_alarms world sev src lim).2 =
      [{ method := "GET"
         url := c.base_url ++ "/" ++ lstripSlash "/alarms"
         params := (if pyTruthy lim then [("limit", lim)] else []) ++
           (if isNotNone sev then [("severity", sev)] else []) ++
           (if pyTruthy src then [("source", src)] else [])
         body := Option.none
         headers := sessionHeaders
         auth := (c.username, c.password)
         verify := c.verify_ssl }] := rfl

/-- The dispatcher's request log for `list_alarms` is exactly the log of
the underlying `get_alarms` call. -/
theorem call_tool_list_alarms_log (c : UIMClient) (world : World) (args : Args) :
    (call_tool (some c) world "list_alarms" args).2 =
      (c.get_alarms world (args.get "severity") (args.get "source")
        (args.getD "limit" (PyVal.int 100))).2 := by
  rcases hop : c.get_alarms world (args.get "severity") (args.get "source")
      (args.getD "limit" (PyVal.int 100)) with ⟨r, l⟩
  rcases r with e | result
  · simp [call_tool, call_tool_try, hop]
  · rcases hl : pyLen result with e | n
    · simp [call_tool, call_tool_try, hop, hl]
    · simp [call_tool, call_tool_try, hop, hl]

/-- Claim C5: a `list_alarms` call issues exactly one request; when
`severity` is supplied with value `v` (including `v = 0`) the request's
query parameters include `severity = v`; when `severity` is omitted the
request carries no `severity` parameter; and when `limit` is omitted the
request carries the declared default `limit = 100`. -/
theorem list_alarms_query_params (c : UIMClient) (world : World) (args : Args) (v : Int) :
    (call_tool (some c) world "list_alarms" args).2.length = 1 ∧
    (args.get "severity" = PyVal.int v →
      ("severity", PyVal.int v) ∈
        (reqHead (call_tool (some c) world "list_alarms" args).2).params) ∧
    (args.hasKey "severity" = false →
      ∀ x, ("severity", x) ∉
        (reqHead (call_tool (some c) world "list_alarms" args).2).params) ∧
    (args.hasKey "limit" = false →
      ("limit", PyVal.int 100) ∈
        (reqHead (call_tool (some c) world "list_alarms" args).2).params) := by
  rw [call_tool_list_alarms_log, get_alarms_log]
  refine ⟨rfl, fun h => ?_, fun h x => ?_, fun h => ?_⟩
  · rw [h]
    simp [reqHead, isNotNone]
  · have hs : args.get "severity" = PyVal.none := get_of_not_hasKey args "severity" h
    rw [hs]
    simp [reqHead, isNotNone]
  · have hl : args.getD "limit" (PyVal.int 100) = PyVal.int 100 :=
      getD_of_not_hasKey args "limit" (PyVal.int 100) h
    rw [hl]
    simp [reqHead, pyTruthy]

/-- Calling `list_alarms` with `severity=3` (and, in a second call,
`severity=0`) puts that severity among the query parameters; omitting
`severity` leaves it out; omitting `limit` sends the default 100. -/
theorem list_alarms_query_params_witness :
    ("severity", PyVal.int 3) ∈
      (reqHead (call_tool (some sampleClient) worldOkEmptyList "list_alarms"
        [("severity", PyVal.int 3)]).2).params ∧
    ("severity", PyVal.int 0) ∈
      (reqHead (call_tool (some sampleClient) worldOkEmptyList "list_alarms"
        [("severity", PyVal.int 0)]).2).params ∧
    (∀ x, ("severity", x) ∉
      (reqHead (call_tool (some sampleClient) worldOkEmptyList "list_alarms" []).2).params) ∧
    ("limit", PyVal.int 100) ∈
      (reqHead (call_tool (some sampleClient) worldOkEmptyList "list_alarms"
        [("severity", PyVal.int 3)]).2).params := by
  refine ⟨(list_alarms_query_params sampleClient worldOkEmptyList
      [("severity", PyVal.int 3)] 3).2.1 rfl,
    (list_alarms_query_params sampleClient worldOkEmptyList
      [("severity", PyVal.int 0)] 0).2.1 rfl,
    (list_alarms_query_params sampleClient worldOkEmptyList [] 0).2.2.1 rfl,
    (list_alarms_query_params sampleClient worldOkEmptyList
      [("severity", PyVal.int 3)] 3).2.2.2 rfl⟩

/-- Counterexample to claim C4 as stated: supplying the (empty) message
`m = ""` to `acknowledge_alarm` issues a request whose body is the empty
object, not `"message": ""` — the code tests the message's truthiness,
not its presence. -/
theorem ack_empty_message_body_counterexample :
    (reqHead (call_tool (some sampleClient) worldOkObj "acknowledge_alarm"
        [("alarm_id", PyVal.str "A1"), ("message", PyVal.str "")]).2).body =
      some (Json.obj JsonObj.nil) ∧
    some (Json.obj JsonObj.nil) ≠
      some (Json.obj (JsonObj.cons "message" (Json.str "") JsonObj.nil)) ∧
    (call_tool (some sampleClient) worldOkObj "acknowledge_alarm"
        [("alarm_id", PyVal.str "A1"), ("message", PyVal.str "")]).2.length = 1 := by
  refine ⟨by decide, by decide, by decide⟩

/-- Claim C4 (amended): for every alarm id, `acknowledge_alarm` issues
exactly one `PUT` to `/alarms/{id}/ack` whose JSON body is the empty
object when the message is absent or falsy (`None`, `""`, `0`), and
`"message": m` when a non-empty string message `m` is supplied. -/
theorem ack_body_empty_or_message (c : UIMClient) (world : World) (alarm_id message : PyVal) :
    (c.acknowledge_alarm world alarm_id message).2.length = 1 ∧
    (reqHead (c.acknowledge_alarm world alarm_id message).2).method = "PUT" ∧
    (reqHead (c.acknowledge_alarm world alarm_id message).2).url =
      c.base_url ++ "/" ++ ("alarms/" ++ pyStr alarm_id ++ "/ack") ∧
    (pyTruthy message = false →
      (reqHead (c.acknowledge_alarm world alarm_id message).2).body =
        some (Json.obj JsonObj.nil)) ∧
    (∀ m, m ≠ "" → message = PyVal.str m →
      (reqHead (c.acknowledge_alarm world alarm_id message).2).body =
        some (Json.obj (JsonObj.cons "message" (Json.str m) JsonObj.nil))) := by
  refine ⟨rfl, rfl, ?_, fun h => ?_, fun m hm hmsg => ?_⟩
  · show c.base_url ++ "/" ++ lstripSlash ("/alarms/" ++ pyStr alarm_id ++ "/ack") = _
    rw [String.append_assoc ("/alarms/" : String) (pyStr alarm_id) "/ack",
      lstripSlash_alarms]
    simp [String.append_assoc]
  · simp [UIMClient.acknowledge_alarm, UIMClient.make_request, reqHead, h]
  · subst hmsg
    simp [UIMClient.acknowledge_alarm, UIMClient.make_request, reqHead, pyTruthy, pyToJson,
      pyStr, hm]
    rw [Bool.eq_false_iff]
    intro hc
    exact hm ((String.isEmpty_iff m).mp hc)

/-- With no message the acknowledgement body is the empty object; with
the non-empty message `"hello"` it is `"message": "hello"`; the single
request is a `PUT` to `/alarms/A1/ack`. -/
theorem ack_body_empty_or_message_witness :
    (reqHead (sampleClient.acknowledge_alarm worldOkObj (PyVal.str "A1")
        PyVal.none).2).body = some (Json.obj JsonObj.nil) ∧
    (reqHead (sampleClient.acknowledge_alarm worldOkObj (PyVal.str "A1")
        (PyVal.str "hello")).2).body =
      some (Json.obj (JsonObj.cons "message" (Json.str "hello") JsonObj.nil)) ∧
    (reqHead (sampleClient.acknowledge_alarm worldOkObj (PyVal.str "A1")
        PyVal.none).2).method = "PUT" ∧
    (reqHead (sampleClient.acknowledge_alarm worldOkObj (PyVal.str "A1")
        PyVal.none).2).url = "http://uim" ++ "/" ++ ("alarms/" ++ "A1" ++ "/ack") := by
  have h1 := ack_body_empty_or_message sampleClient worldOkObj (PyVal.str "A1") PyVal.none
  have h2 := ack_body_empty_or_message sampleClient worldOkObj (PyVal.str "A1")
    (PyVal.str "hello")
  exact ⟨h1.2.2.2.1 rfl, h2.2.2.2.2 "hello" (by decide) rfl, h1.2.1, h1.2.2.1⟩

/-- The one request `_make_request` builds and issues for the given
method, endpoint, query parameters and body. -/
def builtRequest (c : UIMClient) (method endpoint : String)
    (params : List (String × PyVal)) (body : Option Json) : Request :=
  { method := method
    url := c.base_url ++ "/" ++ lstripSlash endpoint
    params := params
    body := body
    headers := sessionHeaders
    auth := (c.username, c.password)
    verify := c.verify_ssl }

/-- Counterexample to claim C7 as stated: a `304 Not Modified` upstream
response is not 2xx, yet `_make_request` raises no error for it (the
session only raises for 4xx/5xx) — it decodes the empty body to the
empty object. -/
theorem non2xx_no_raise_counterexample :
    exceptIsError ((sampleClient.make_request world304 "GET" "/devices/D1" []
      Option.none).1) = false ∧
    (sampleClient.make_request world304 "GET" "/devices/D1" [] Option.none).1 =
      Except.ok (Json.obj JsonObj.nil) := by
  exact ⟨rfl, rfl⟩

/-- `_make_request`'s decoded result, written against the one request it
issues. -/
theorem make_request_fst (c : UIMClient) (world : World) (method endpoint : String)
    (params : List (String × PyVal)) (body : Option Json) :
    (c.make_request world method endpoint params body).1 =
      match world (builtRequest c method endpoint params body) with
      | HttpResult.exn msg => Except.error msg
      | HttpResult.resp status reason rbody =>
        match raise_for_status status reason
            (builtRequest c method endpoint params body).url with
        | Except.error e => Except.error e
        | Except.ok _ =>
          Except.ok (match rbody with
            | Option.none => Json.obj JsonObj.nil
            | some j => j) := rfl

/-- Claim C7 (amended): a 4xx or 5xx HTTP status raises an error carrying
the upstream status and reason, a network-level failure raises its
message, and an empty body on a non-error status yields the empty object
rather than a fault; consequently `get_device_info` against a 404
upstream yields a single dispatcher error response containing the
upstream status instead of an uncaught exception. -/
theorem transport_error_carries_status (c : UIMClient) (world : World)
    (method endpoint : String) (params : List (String × PyVal)) (body : Option Json)
    (args : Args) :
    (∀ req, (c.make_request world method endpoint params body).2 = [req] →
      (∀ status reason rbody, world req = HttpResult.resp status reason rbody →
        400 ≤ status → status < 600 →
        exceptIsError (c.make_request world method endpoint params body).1 = true ∧
        strContains (exceptErr (c.make_request world method endpoint params body).1)
          (toString status) = true ∧
        strContains (exceptErr (c.make_request world method endpoint params body).1)
          reason = true) ∧
      (∀ status reason, world req = HttpResult.resp status reason Option.none →
        status < 400 →
        (c.make_request world method endpoint params body).1 =
          Except.ok (Json.obj JsonObj.nil)) ∧
      (∀ msg, world req = HttpResult.exn msg →
        (c.make_request world method endpoint params body).1 = Except.error msg)) ∧
    ((∀ r, world r = HttpResult.resp 404 "Not Found" Option.none) →
      args.hasKey "device_id" = true →
      (call_tool (some c) world "get_device_info" args).1.length = 1 ∧
      strContains (textHead (call_tool (some c) world "get_device_info" args).1)
        "404" = true ∧
      strStartsWith (textHead (call_tool (some c) world "get_device_info" args).1)
        "Error: " = true) := by
  constructor
  · intro req hreq
    have h0 : (c.make_request world method endpoint params body).2 =
        [builtRequest c method endpoint params body] := rfl
    rw [h0] at hreq
    simp only [List.cons.injEq, and_true] at hreq
    subst hreq
    refine ⟨fun status reason rbody hw h4 h6 => ?_, fun status reason hw h4 => ?_,
      fun msg hw => ?_⟩
    · rw [make_request_fst, hw]
      by_cases h5 : status < 500
      · simp [raise_for_status, h4, h5, exceptIsError, exceptErr]
        constructor
        · apply strContains_append_left
          apply strContains_append_left
          apply strContains_append_left
          apply strContains_append_left
          exact strContains_self _
        · apply strContains_append_left
          apply strContains_append_left
          exact strContains_append_right _ _ _ (strContains_self _)
      · have h5a : 500 ≤ status := by omega
        simp [raise_for_status, h5a, h6, exceptIsError, exceptErr,
          show ¬(400 ≤ status ∧ status < 500) from by omega]
        constructor
        · apply strContains_append_left
          apply strContains_append_left
          apply strContains_append_left
          apply strContains_append_left
          exact strContains_self _
        · apply strContains_append_left
          apply strContains_append_left
          exact strContains_append_right _ _ _ (strContains_self _)
    · rw [make_request_fst, hw]
      simp [raise_for_status, show ¬(400 ≤ status ∧ status < 500) from by omega,
        show ¬(500 ≤ status ∧ status < 600) from by omega]
    · rw [make_request_fst, hw]
  · intro hw hk
    obtain ⟨did, hdid⟩ := getItem_of_hasKey args "device_id" hk
    rcases hop : c.get_device_info world did with ⟨r, l⟩
    have herr : r = Except.error (toString 404 ++ " Client Error: " ++ "Not Found" ++
        " for url: " ++ (builtRequest c "GET" ("/devices/" ++ pyStr did) []
          Option.none).url) := by
      have h1 : r = (c.get_device_info world did).1 := by rw [hop]
      rw [h1, show c.get_device_info world did = c.make_request world "GET"
        ("/devices/" ++ pyStr did) [] Option.none from rfl, make_request_fst, hw]
      simp [raise_for_status]
    subst herr
    have hout : (call_tool (some c) world "get_device_info" args).1 =
        [⟨"text", "Error: " ++ (toString 404 ++ " Client Error: " ++ "Not Found" ++
          " for url: " ++ (builtRequest c "GET" ("/devices/" ++ pyStr did) []
            Option.none).url)⟩] := by
      simp [call_tool, call_tool_try, hdid, hop]
    rw [hout]
    refine ⟨rfl, ?_, ?_⟩
    · show strContains ("Error: " ++ (toString 404 ++ " Client Error: " ++ "Not Found" ++
        " for url: " ++ (builtRequest c "GET" ("/devices/" ++ pyStr did) []
          Option.none).url)) "404" = true
      apply strContains_append_right
      apply strContains_append_left
      apply strContains_append_left
      apply strContains_append_left
      apply strContains_append_left
      rw [show (toString 404 : String) = "404" from rfl]
      exact strContains_self _
    · exact strStartsWith_append _ _

/-- Against a stubbed 404 upstream, `_make_request` raises with the
status and reason in the message, and `get_device_info` through the
dispatcher answers with a single `Error: ...` response containing 404. -/
theorem transport_error_carries_status_witness :
    exceptIsError ((sampleClient.make_request world404 "GET" "/x" [] Option.none).1) =
      true ∧
    strContains (exceptErr ((sampleClient.make_request world404 "GET" "/x" []
      Option.none).1)) (toString 404) = true ∧
    strContains (exceptErr ((sampleClient.make_request world404 "GET" "/x" []
      Option.none).1)) "Not Found" = true ∧
    (call_tool (some sampleClient) world404 "get_device_info"
      [("device_id", PyVal.str "D1")]).1.length = 1 ∧
    strContains (textHead (call_tool (some sampleClient) world404 "get_device_info"
      [("device_id", PyVal.str "D1")]).1) "404" = true ∧
    strStartsWith (textHead (call_tool (some sampleClient) world404 "get_device_info"
      [("device_id", PyVal.str "D1")]).1) "Error: " = true := by
  have h := transport_error_carries_status sampleClient world404 "GET" "/x" [] Option.none
    [("device_id", PyVal.str "D1")]
  have h1 := (h.1 (builtRequest sampleClient "GET" "/x" [] Option.none) rfl).1 404
    "Not Found" Option.none rfl (by omega) (by omega)
  have h2 := h.2 (fun r => rfl) rfl
  exact ⟨h1.1, h1.2.1, h1.2.2, h2.1, h2.2.1, h2.2.2⟩

/-- An environment with all three required variables present but the
password empty. -/
def envPresentEmpty : Env :=
  { UIM_BASE_URL := some "http://uim", UIM_USERNAME := some "admin",
    UIM_PASSWORD := some "", UIM_VERIFY_SSL := Option.none }

/-- An environment missing only `UIM_BASE_URL`. -/
def envMissingUrl : Env :=
  { UIM_BASE_URL := Option.none, UIM_USERNAME := some "admin",
    UIM_PASSWORD := some "secret", UIM_VERIFY_SSL := Option.none }

/-- A complete environment. -/
def envComplete : Env :=
  { UIM_BASE_URL := some "http://uim/", UIM_USERNAME := some "admin",
    UIM_PASSWORD := some "secret", UIM_VERIFY_SSL := some "False" }

/-- Counterexample to claim C8 as stated: with all three required
variables present (`UIM_PASSWORD` set to the empty string),
initialization still raises — the code tests truthiness (`not all(...)`),
so a present-but-empty variable fails startup. -/
theorem startup_env_counterexample :
    envPresentEmpty.UIM_BASE_URL ≠ Option.none ∧
    envPresentEmpty.UIM_USERNAME ≠ Option.none ∧
    envPresentEmpty.UIM_PASSWORD ≠ Option.none ∧
    exceptIsError (init_uim_client envPresentEmpty) = true := by
  refine ⟨by decide, by decide, by decide, rfl⟩

/-- Claim C8 (amended): if any of the three required variables is absent
or empty, startup raises before any call is served, with a descriptive
error that mentions each required (hence each missing) variable by name;
if all three are present and non-empty, initialization succeeds and the
client is constructed. -/
theorem startup_validation_amended (env : Env) (world : World)
    (calls : List (String × Args)) :
    ((pyTruthyOptStr env.UIM_BASE_URL && pyTruthyOptStr env.UIM_USERNAME &&
        pyTruthyOptStr env.UIM_PASSWORD) = false →
      exceptIsError (mainServe env world calls) = true ∧
      strContains (exceptErr (mainServe env world calls)) "UIM_BASE_URL" = true ∧
      strContains (exceptErr (mainServe env world calls)) "UIM_USERNAME" = true ∧
      strContains (exceptErr (mainServe env world calls)) "UIM_PASSWORD" = true) ∧
    ((pyTruthyOptStr env.UIM_BASE_URL && pyTruthyOptStr env.UIM_USERNAME &&
        pyTruthyOptStr env.UIM_PASSWORD) = true →
      exceptIsError (init_uim_client env) = false ∧
      exceptIsError (mainServe env world calls) = false) := by
  constructor
  · intro h
    have hinit : init_uim_client env = Except.error
        "Missing required environment variables: UIM_BASE_URL, UIM_USERNAME, UIM_PASSWORD" := by
      simp [init_uim_client, h]
    simp [mainServe, hinit, exceptIsError, exceptErr]
    refine ⟨by decide, by decide, by decide⟩
  · intro h
    have hok : ∃ cl, init_uim_client env = Except.ok cl := by
      simp [init_uim_client, h]
    obtain ⟨cl, hcl⟩ := hok
    simp [mainServe, hcl, exceptIsError]

/-- With `UIM_BASE_URL` unset the server raises its descriptive error
before serving any call; with a complete environment it starts. -/
theorem startup_validation_amended_witness :
    (exceptIsError (mainServe envMissingUrl worldOkObj []) = true ∧
     strContains (exceptErr (mainServe envMissingUrl worldOkObj [])) "UIM_BASE_URL" = true ∧
     strContains (exceptErr (mainServe envMissingUrl worldOkObj [])) "UIM_USERNAME" = true ∧
     strContains (exceptErr (mainServe envMissingUrl worldOkObj [])) "UIM_PASSWORD" = true) ∧
    (exceptIsError (init_uim_client envComplete) = false ∧
     exceptIsError (mainServe envComplete worldOkObj []) = false) :=
  ⟨(startup_validation_amended envMissingUrl worldOkObj []).1 rfl,
   (startup_validation_amended envComplete worldOkObj []).2 rfl⟩

/-- Counterexample to claim C9 as stated: the bodyless `GET /probes`
request still carries `Content-Type: application/json` — the header is
installed on the session once and sent with every request, not only with
requests that have a body. -/
theorem content_type_without_body_counterexample :
    (reqHead (sampleClient.get_probes worldOkObj).2).body = Option.none ∧
    (reqHead (sampleClient.get_probes worldOkObj).2).method = "GET" ∧
    ("Content-Type", "application/json") ∈
      (reqHead (sampleClient.get_probes worldOkObj).2).headers := by
  refine ⟨rfl, rfl, by decide⟩

/-- Claim C9 (amended): every HTTP request issued by the client (all
twelve operations funnel through `_make_request`) carries both
`Accept: application/json` and `Content-Type: application/json`,
regardless of whether the request has a body. -/
theorem all_requests_carry_json_headers (c : UIMClient) (world : World)
    (method endpoint : String) (params : List (String × PyVal)) (body : Option Json) :
    (c.make_request world method endpoint params body).2.length = 1 ∧
    ("Accept", "application/json") ∈
      (reqHead (c.make_request world method endpoint params body).2).headers ∧
    ("Content-Type", "application/json") ∈
      (reqHead (c.make_request world method endpoint params body).2).headers := by
  refine ⟨rfl, ?_, ?_⟩ <;> simp [UIMClient.make_request, reqHead, sessionHeaders]
